import Mathlib

/-!
Verification development for the go-flutter text-input plugin and its JSON
message codec.  The Go sources embedded here are
`plugin/json-message-codec.go` and `textinput.go`.

Machine integers: Go `int` selection offsets are modelled as `Int`, byte
values as `Nat` in `[0, 256)`, GLFW key codes and modifier bitmasks as `Nat`.
The client identifier is a Go `float64`; every claim treats it as a numeric
handle compared against the sentinel `0`, so it is modelled as `Int`.
-/

namespace GoFlutter

/- ## JSON values and Go's `encoding/json` marshalling

`plugin/json-message-codec.go` delegates to Go's `encoding/json`.  The codec
is generic over `interface{}` values; we model the JSON-representable values
the codec can carry, including Go `[]byte` slices, which `json.Marshal`
renders as a standard base64 string.  `Json` and `JsonList` are a mutual
inductive so that marshalling is structurally recursive. -/

mutual

inductive Json where
  | null : Json
  | bool (b : Bool) : Json
  | num (i : Int) : Json
  | str (s : String) : Json
  | bytes (b : List Nat) : Json
  | arr (elems : JsonList) : Json

inductive JsonList where
  | nil : JsonList
  | cons (hd : Json) (tl : JsonList) : JsonList

end

/-- UTF-8 encoding of a Unicode scalar value, as Go writes strings. -/
def utf8Bytes (n : Nat) : List Nat :=
  if n < 0x80 then [n]
  else if n < 0x800 then [0xC0 + n / 64, 0x80 + n % 64]
  else if n < 0x10000 then [0xE0 + n / 4096, 0x80 + n / 64 % 64, 0x80 + n % 64]
  else [0xF0 + n / 262144, 0x80 + n / 4096 % 64, 0x80 + n / 64 % 64, 0x80 + n % 64]

/-- The UTF-8 bytes of a string. -/
def strBytes (s : String) : List Nat :=
  (s.data.map (fun c => utf8Bytes c.toNat)).flatten

/-- The standard base64 alphabet, as byte values. -/
def base64Alphabet : List Nat :=
  strBytes ("ABCDEFGHIJKLMNOPQRSTUVWXYZabcdefghijklmnopqrstuvwxyz0123456789+/")

/-- One base64 alphabet byte. -/
def b64Char (i : Nat) : Nat := base64Alphabet.getD i 65

/-- Standard (padded) base64 encoding of a byte list, as Go's
`encoding/base64.StdEncoding` used by `json.Marshal` on `[]byte`. -/
def base64Encode : List Nat → List Nat
  | [] => []
  | [a] => [b64Char (a / 4), b64Char (a % 4 * 16), 61, 61]
  | [a, b] => [b64Char (a / 4), b64Char (a % 4 * 16 + b / 16), b64Char (b % 16 * 4), 61]
  | a :: b :: c :: rest =>
      b64Char (a / 4) :: b64Char (a % 4 * 16 + b / 16) ::
      b64Char (b % 16 * 4 + c / 64) :: b64Char (c % 64) :: base64Encode rest

/-- Hexadecimal digit byte, for `\u00XX` escapes. -/
def hexDigit (n : Nat) : Nat := if n < 10 then 48 + n else 87 + n

/-- Go's `encoding/json` escaping of one string character: quotes,
backslashes and control characters are escaped, and `<`, `>`, `&` are
HTML-escaped to `<`, `>`, `&` by default. -/
def jsonEscapeChar (c : Char) : List Nat :=
  let n := c.toNat
  if n = 34 then [92, 34]
  else if n = 92 then [92, 92]
  else if n = 10 then [92, 110]
  else if n = 13 then [92, 114]
  else if n = 9 then [92, 116]
  else if n = 60 ∨ n = 62 ∨ n = 38 ∨ n < 32 then
    [92, 117, 48, 48, hexDigit (n / 16), hexDigit (n % 16)]
  else utf8Bytes n

/-- Decimal bytes of an integer, as Go prints JSON numbers with integral
values. -/
def intBytes (i : Int) : List Nat := strBytes (toString i)

mutual

/-- The bytes `json.Marshal` produces for a value.  `[]byte` values are
rendered as a quoted standard-base64 string; arrays are comma-joined in
brackets. -/
def jsonMarshal : Json → List Nat
  | Json.null => [110, 117, 108, 108]
  | Json.bool true => [116, 114, 117, 101]
  | Json.bool false => [102, 97, 108, 115, 101]
  | Json.num i => intBytes i
  | Json.str s => 34 :: (s.data.map jsonEscapeChar).flatten ++ [34]
  | Json.bytes b => 34 :: base64Encode b ++ [34]
  | Json.arr l => 91 :: jsonMarshalElems l ++ [93]

/-- Comma-joined marshalling of array elements. -/
def jsonMarshalElems : JsonList → List Nat
  | JsonList.nil => []
  | JsonList.cons x JsonList.nil => jsonMarshal x
  | JsonList.cons x (JsonList.cons y tl) =>
      jsonMarshal x ++ 44 :: jsonMarshalElems (JsonList.cons y tl)

end

/- ## The codec itself (`plugin/json-message-codec.go`) -/

/-- `JSONMessageCodec.EncodeMessage`: `return json.Marshal(&message)`. -/
def encodeMessage (message : Json) : Except String (List Nat) :=
  Except.ok (jsonMarshal message)

/-- `JSONMessageCodec.DecodeMessage`:
`return json.Marshal([]interface{}{binaryMessage})`.
The code marshals the raw input bytes wrapped in a one-element array —
it does not unmarshal — so the returned "message" is the byte slice
produced by `json.Marshal`, and no input ever yields an error. -/
def decodeMessage (binaryMessage : List Nat) : Except String Json :=
  Except.ok (Json.bytes (jsonMarshal (Json.arr (JsonList.cons (Json.bytes binaryMessage) JsonList.nil))))

/- ## Text-input plugin state (`textinput.go`)

GLFW constants (go-gl/glfw v3.2): modifier bits and the key codes the
callback compares against. -/

def modShift : Nat := 1
def modControl : Nat := 2
def modAlt : Nat := 4
def modSuper : Nat := 8

def keyEscape : Nat := 256
def keyEnter : Nat := 257
def keyBackspace : Nat := 259
def keyDelete : Nat := 261
def keyRight : Nat := 262
def keyLeft : Nat := 263
def keyHome : Nat := 268
def keyEnd : Nat := 269

/-- Android `KeyEvent` meta-state constants from `textinput.go`. -/
def androidMetaStateShift : Nat := 1
def androidMetaStateAlt : Nat := 2
def androidMetaStateCtrl : Nat := 4096
def androidMetaStateMeta : Nat := 65536

/-- The keyboard-shortcut binding table (`KeyboardShortcuts`).  Its
declaration lives in a repository file outside the provided sources; the
field set is determined by its uses in `glfwKeyCallback`
(`SelectAll`, `Copy`, `Cut`, `Paste`, each a GLFW key code). -/
structure KeyboardShortcuts where
  selectAll : Nat
  copy : Nat
  cut : Nat
  paste : Nat
  deriving DecidableEq

/-- The mutable fields of `textinputPlugin`: the platform modifier profile
resolved by `InitPlugin`, the shortcut table, the focused client handle
(sentinel `0`), and the editing state (`word`, `selectionBase`,
`selectionExtent`).  Channel and window handles are modelled as effects of
the operations rather than state. -/
structure TextinputPlugin where
  modifierKey : Nat
  wordTravellerKey : Nat
  wordTravellerKeyShift : Nat
  keyboardLayout : KeyboardShortcuts
  clientID : Int
  word : List Char
  selectionBase : Int
  selectionExtent : Int
  deriving DecidableEq

/-- `InitPlugin`'s platform-dependent modifier-profile resolution: on
`darwin` the primary modifier is Super and the word traveller Alt; on every
other OS both are Control. -/
def initPluginModifiers (goos : String) (p : TextinputPlugin) : TextinputPlugin :=
  if goos = ("darwin") then
    { p with modifierKey := modSuper, wordTravellerKey := modAlt,
             wordTravellerKeyShift := modAlt ||| modShift }
  else
    { p with modifierKey := modControl, wordTravellerKey := modControl,
             wordTravellerKeyShift := modControl ||| modShift }

/-- The JSON argument record decoded by `handleSetEditingState`
(`argsEditingState`, declared outside the provided sources; its fields are
determined by their uses: `Text`, `SelectionBase`, `SelectionExtent`). -/
structure ArgsEditingState where
  text : String
  selectionBase : Int
  selectionExtent : Int
  deriving DecidableEq

def errNoClient : String := "cannot set editing state when no client is selected"
def errDecodeEditingState : String :=
  "failed to decode json arguments for handleSetEditingState"
def errDecodeSetClient : String := "failed to decode json arguments for handleSetClient"

/-- `handleSetEditingState`: rejects when no client is focused (before
decoding), propagates a JSON decode failure (`arguments = none`), and
otherwise stores `text` (as runes), `selectionBase` and `selectionExtent`
exactly as decoded. -/
def handleSetEditingState (p : TextinputPlugin) (arguments : Option ArgsEditingState) :
    TextinputPlugin × Option String :=
  if p.clientID = 0 then (p, some errNoClient)
  else
    match arguments with
    | none => (p, some errDecodeEditingState)
    | some es =>
        ({ p with word := es.text.data,
                  selectionBase := es.selectionBase,
                  selectionExtent := es.selectionExtent }, none)

/-- `handleSetClient`: decodes the arguments as a JSON array (`none` models
a decode failure) and stores `args[0].(float64)` as the client handle.  The
outer `Option` is `none` when the Go code would panic: an empty argument
array (`args[0]` out of range) or a non-numeric first element (failed type
assertion). -/
def handleSetClient (p : TextinputPlugin) (arguments : Option (List Json)) :
    Option (TextinputPlugin × Option String) :=
  match arguments with
  | none => some (p, some errDecodeSetClient)
  | some (Json.num id :: _) => some ({ p with clientID := id }, none)
  | some _ => none

/-- `handleClearClient`: resets the focused client handle to the sentinel
`0` and nothing else. -/
def handleClearClient (p : TextinputPlugin) : TextinputPlugin × Option String :=
  ({ p with clientID := 0 }, none)

/- ## Key-event translation (`glfwKeyCallback`) -/

/-- The four classification booleans computed at the top of
`glfwKeyCallback`.  The Go `switch` takes the first matching case, so at
most one flag is set. -/
structure ModFlags where
  isWordModifierShift : Bool
  isWordModifier : Bool
  isModifier : Bool
  isShift : Bool
  deriving DecidableEq

/-- The modifier-classification `switch` of `glfwKeyCallback`, in source
order: `wordTravellerKeyShift`, then `wordTravellerKey`, then
`modifierKey`, then `glfw.ModShift`; anything else leaves all flags
false. -/
def classifyFlags (wordTravellerKeyShift wordTravellerKey modifierKey mods : Nat) : ModFlags :=
  if mods = wordTravellerKeyShift then ⟨true, false, false, false⟩
  else if mods = wordTravellerKey then ⟨false, true, false, false⟩
  else if mods = modifierKey then ⟨false, false, true, false⟩
  else if mods = modShift then ⟨false, false, false, true⟩
  else ⟨false, false, false, false⟩

/-- `conditionalInt`: returns `val1` if `condition`, otherwise `0`. -/
def conditionalInt (condition : Bool) (val1 : Nat) : Nat :=
  if condition then val1 else 0

/-- The `metaState` bitmask built when sending a key event: each held GLFW
modifier contributes its Android meta-state bit. -/
def metaStateOf (mods : Nat) : Nat :=
  conditionalInt (mods &&& modShift != 0) androidMetaStateShift |||
  conditionalInt (mods &&& modAlt != 0) androidMetaStateAlt |||
  conditionalInt (mods &&& modControl != 0) androidMetaStateCtrl |||
  conditionalInt (mods &&& modSuper != 0) androidMetaStateMeta

/-- GLFW key actions. -/
inductive KeyAction where
  | press : KeyAction
  | release : KeyAction
  | rep : KeyAction
  deriving DecidableEq

def androidKeymap : String := "android"
def keyupType : String := "keyup"
def keydownType : String := "keydown"
def doneAction : String := "done"
def newlineAction : String := "newline"
def newlineChar : Char := Char.ofNat 10

/-- The normalized key event sent on the `flutter/keyevent` basic message
channel. -/
structure KeyEvent where
  keyCode : Nat
  keymap : String
  eventType : String
  metaState : Nat
  deriving DecidableEq

/-- Observable outcome of one `glfwKeyCallback` invocation: the plugin
state afterwards, the key events sent on the basic message channel, the
number of `popRoute` method invocations on the navigation channel, and the
strings written to the system clipboard. -/
structure CallbackResult where
  state : TextinputPlugin
  keyEvents : List KeyEvent
  popRoutes : Nat
  clipboardSets : List String
  deriving DecidableEq

/-- The text-model mutators called by `glfwKeyCallback` (`addChar`,
`performAction`, `MoveCursorHome`/`End`/`Left`/`Right`, `Delete`,
`Backspace`, `SelectAll`, `isSelected`, `GetSelectedText`,
`RemoveSelectedText`).  They are declared in a repository file outside the
provided sources, so the callback embedding is parameterized over them: the
theorems below hold for every implementation.  The four `Bool` arguments
follow the Go call order `(modsIsModfifier, modsIsShift,
modsIsWordModifierShift, modsIsWordModifier)`. -/
structure EditingOps where
  addChar : TextinputPlugin → List Char → TextinputPlugin
  performAction : TextinputPlugin → String → TextinputPlugin
  moveCursorHome : TextinputPlugin → Bool → Bool → Bool → Bool → TextinputPlugin
  moveCursorEnd : TextinputPlugin → Bool → Bool → Bool → Bool → TextinputPlugin
  moveCursorLeft : TextinputPlugin → Bool → Bool → Bool → Bool → TextinputPlugin
  moveCursorRight : TextinputPlugin → Bool → Bool → Bool → Bool → TextinputPlugin
  deleteForward : TextinputPlugin → Bool → Bool → Bool → Bool → TextinputPlugin
  backspace : TextinputPlugin → Bool → Bool → Bool → Bool → TextinputPlugin
  selectAll : TextinputPlugin → TextinputPlugin
  isSelected : TextinputPlugin → Bool
  selectedText : TextinputPlugin → String
  removeSelectedText : TextinputPlugin → TextinputPlugin

/-- The editing-dispatch `switch` of `glfwKeyCallback`, run on press or
repeat with a client focused.  Returns the updated state and the clipboard
writes, or `none` when the Go code returns early out of the whole callback
(clipboard read failure on paste).  Cases are checked in source order, so a
shortcut binding equal to a built-in key is shadowed by the built-in
case. -/
def dispatchKey (ops : EditingOps) (p : TextinputPlugin) (key : Nat) (mods : Nat)
    (flags : ModFlags) (clipboard : Except String String) :
    Option (TextinputPlugin × List String) :=
  if key = keyEnter then
    if mods = p.modifierKey then some (ops.performAction p doneAction, [])
    else some (ops.performAction (ops.addChar p [newlineChar]) newlineAction, [])
  else if key = keyHome then
    some (ops.moveCursorHome p flags.isModifier flags.isShift
      flags.isWordModifierShift flags.isWordModifier, [])
  else if key = keyEnd then
    some (ops.moveCursorEnd p flags.isModifier flags.isShift
      flags.isWordModifierShift flags.isWordModifier, [])
  else if key = keyLeft then
    some (ops.moveCursorLeft p flags.isModifier flags.isShift
      flags.isWordModifierShift flags.isWordModifier, [])
  else if key = keyRight then
    some (ops.moveCursorRight p flags.isModifier flags.isShift
      flags.isWordModifierShift flags.isWordModifier, [])
  else if key = keyDelete then
    some (ops.deleteForward p flags.isModifier flags.isShift
      flags.isWordModifierShift flags.isWordModifier, [])
  else if key = keyBackspace then
    some (ops.backspace p flags.isModifier flags.isShift
      flags.isWordModifierShift flags.isWordModifier, [])
  else if key = p.keyboardLayout.selectAll then
    if mods = p.modifierKey then some (ops.selectAll p, []) else some (p, [])
  else if key = p.keyboardLayout.copy then
    if mods = p.modifierKey && ops.isSelected p then
      some (p, [ops.selectedText p])
    else some (p, [])
  else if key = p.keyboardLayout.cut then
    if mods = p.modifierKey && ops.isSelected p then
      some (ops.removeSelectedText p, [ops.selectedText p])
    else some (p, [])
  else if key = p.keyboardLayout.paste then
    if mods = p.modifierKey then
      match clipboard with
      | Except.error _ => none
      | Except.ok s => some (ops.addChar p s.data, [])
    else some (p, [])
  else some (p, [])

/-- `glfwKeyCallback`: classifies the modifiers, intercepts Escape presses
into a `popRoute` navigation call, runs the editing dispatch on press or
repeat when a client is focused (returning early when it is not), and
finally forwards press and release events as normalized key events on the
basic message channel (repeat reaches the forwarding code but is dropped
with a diagnostic).  `clipboard` is the result the window system would
return for `GetClipboardString`. -/
def glfwKeyCallback (ops : EditingOps) (p : TextinputPlugin) (key : Nat)
    (action : KeyAction) (mods : Nat) (clipboard : Except String String) :
    CallbackResult :=
  let flags := classifyFlags p.wordTravellerKeyShift p.wordTravellerKey p.modifierKey mods
  if key = keyEscape ∧ action = KeyAction.press then
    { state := p, keyEvents := [], popRoutes := 1, clipboardSets := [] }
  else
    let editing : Option (TextinputPlugin × List String) :=
      if action = KeyAction.rep ∨ action = KeyAction.press then
        if p.clientID = 0 then none
        else dispatchKey ops p key mods flags clipboard
      else some (p, [])
    match editing with
    | none => { state := p, keyEvents := [], popRoutes := 0, clipboardSets := [] }
    | some (p2, clips) =>
        match action with
        | KeyAction.release =>
            { state := p2,
              keyEvents := [⟨key, androidKeymap, keyupType, metaStateOf mods⟩],
              popRoutes := 0, clipboardSets := clips }
        | KeyAction.press =>
            { state := p2,
              keyEvents := [⟨key, androidKeymap, keydownType, metaStateOf mods⟩],
              popRoutes := 0, clipboardSets := clips }
        | KeyAction.rep =>
            { state := p2, keyEvents := [], popRoutes := 0, clipboardSets := clips }

/-- The selection invariant stated by the specification. -/
def selectionInvariant (p : TextinputPlugin) : Prop :=
  0 ≤ p.selectionBase ∧ p.selectionBase ≤ (p.word.length : Int) ∧
  0 ≤ p.selectionExtent ∧ p.selectionExtent ≤ (p.word.length : Int)

instance (p : TextinputPlugin) : Decidable (selectionInvariant p) := by
  unfold selectionInvariant; infer_instance

/- ## Concrete fixtures used by witnesses and counterexamples -/

/-- A shortcut table with the usual bindings (A, C, X, V) on distinct,
non-built-in key codes. -/
def linuxLayout : KeyboardShortcuts := ⟨65, 67, 88, 86⟩

/-- A plugin state before `InitPlugin` has resolved the modifier profile. -/
def defaultState : TextinputPlugin :=
  { modifierKey := 0, wordTravellerKey := 0, wordTravellerKeyShift := 0,
    keyboardLayout := linuxLayout, clientID := 0, word := [],
    selectionBase := 0, selectionExtent := 0 }

/-- The state after `InitPlugin` on a non-darwin OS: primary modifier and
word traveller are both Control. -/
def linuxState : TextinputPlugin := initPluginModifiers ("linux") defaultState

/-- A state with a focused client and the text `"ab"`. -/
def focusedState : TextinputPlugin := { linuxState with clientID := 1, word := ['a', 'b'] }

/-- A trivial instantiation of the out-of-source text-model mutators, used
only to evaluate the callback at concrete inputs; every theorem about the
callback is proved for all `EditingOps`. -/
def idOps : EditingOps :=
  { addChar := fun p _ => p, performAction := fun p _ => p,
    moveCursorHome := fun p _ _ _ _ => p, moveCursorEnd := fun p _ _ _ _ => p,
    moveCursorLeft := fun p _ _ _ _ => p, moveCursorRight := fun p _ _ _ _ => p,
    deleteForward := fun p _ _ _ _ => p, backspace := fun p _ _ _ _ => p,
    selectAll := fun p => p, isSelected := fun _ => false,
    selectedText := fun _ => "", removeSelectedText := fun p => p }

/-- On press or repeat, when the clipboard read succeeds, every branch of
the editing dispatch returns (no early exit), whatever the key and
modifiers. -/
theorem dispatchKey_isSome_of_clipboard_ok (ops : EditingOps) (p : TextinputPlugin)
    (key mods : Nat) (flags : ModFlags) (s : String) :
    (dispatchKey ops p key mods flags (Except.ok s)).isSome := by
  unfold dispatchKey
  by_cases h1 : key = keyEnter
  · rw [if_pos h1]
    split <;> rfl
  rw [if_neg h1]
  by_cases h2 : key = keyHome
  · rw [if_pos h2]; rfl
  rw [if_neg h2]
  by_cases h3 : key = keyEnd
  · rw [if_pos h3]; rfl
  rw [if_neg h3]
  by_cases h4 : key = keyLeft
  · rw [if_pos h4]; rfl
  rw [if_neg h4]
  by_cases h5 : key = keyRight
  · rw [if_pos h5]; rfl
  rw [if_neg h5]
  by_cases h6 : key = keyDelete
  · rw [if_pos h6]; rfl
  rw [if_neg h6]
  by_cases h7 : key = keyBackspace
  · rw [if_pos h7]; rfl
  rw [if_neg h7]
  by_cases h8 : key = p.keyboardLayout.selectAll
  · rw [if_pos h8]; split <;> rfl
  rw [if_neg h8]
  by_cases h9 : key = p.keyboardLayout.copy
  · rw [if_pos h9]; split <;> rfl
  rw [if_neg h9]
  by_cases h10 : key = p.keyboardLayout.cut
  · rw [if_pos h10]; split <;> rfl
  rw [if_neg h10]
  by_cases h11 : key = p.keyboardLayout.paste
  · rw [if_pos h11]; split <;> rfl
  · rw [if_neg h11]; rfl

/- ## Claims -/

/-- C1: the JSON message codec does not satisfy the round-trip property and
never fails on malformed bytes.  Encoding the JSON value `true` yields the
bytes of `true`; `DecodeMessage` then returns the bytes of the JSON text
`["dHJ1ZQ=="]` (the input base64-wrapped in a one-element array) rather
than the value `true`, because it calls `json.Marshal` where its
documentation says it decodes; and decoding the malformed single byte `{`
(0x7B) succeeds instead of failing. -/
theorem decodeMessage_is_marshal_not_unmarshal :
    encodeMessage (Json.bool true) = Except.ok [116, 114, 117, 101] ∧
    decodeMessage [116, 114, 117, 101] =
      Except.ok (Json.bytes [91, 34, 100, 72, 74, 49, 90, 81, 61, 61, 34, 93]) ∧
    Json.bytes [91, 34, 100, 72, 74, 49, 90, 81, 61, 61, 34, 93] ≠ Json.bool true ∧
    decodeMessage [123] = Except.ok (Json.bytes [91, 34, 101, 119, 61, 61, 34, 93]) := by
  refine ⟨rfl, rfl, ?_, rfl⟩
  intro h
  exact Json.noConfusion h

/-- C2 counterexample: with a client focused, `setEditingState` with text
`"x"`, base `5` and extent `-2` stores base `5` and extent `-2` verbatim —
no clamping into `[0, 1]` — so the stored selection violates the
invariant. -/
theorem setEditingState_does_not_clamp :
    (handleSetEditingState focusedState (some ⟨"x", 5, -2⟩)).2 = none ∧
    (handleSetEditingState focusedState (some ⟨"x", 5, -2⟩)).1.word = ['x'] ∧
    (handleSetEditingState focusedState (some ⟨"x", 5, -2⟩)).1.selectionBase = 5 ∧
    (handleSetEditingState focusedState (some ⟨"x", 5, -2⟩)).1.selectionExtent = -2 ∧
    ¬ selectionInvariant (handleSetEditingState focusedState (some ⟨"x", 5, -2⟩)).1 := by
  exact ⟨rfl, rfl, rfl, rfl, by decide⟩

/-- C2 (amended): with a client focused, `setEditingState` stores the
decoded text, base and extent exactly as given, without clamping; the
selection invariant therefore holds after the call exactly when the given
base and extent already lie in `[0, length(text)]`. -/
theorem setEditingState_stores_as_given (p : TextinputPlugin) (es : ArgsEditingState)
    (h : p.clientID ≠ 0) :
    (handleSetEditingState p (some es)).2 = none ∧
    (handleSetEditingState p (some es)).1.word = es.text.data ∧
    (handleSetEditingState p (some es)).1.selectionBase = es.selectionBase ∧
    (handleSetEditingState p (some es)).1.selectionExtent = es.selectionExtent ∧
    (selectionInvariant (handleSetEditingState p (some es)).1 ↔
      0 ≤ es.selectionBase ∧ es.selectionBase ≤ (es.text.data.length : Int) ∧
      0 ≤ es.selectionExtent ∧ es.selectionExtent ≤ (es.text.data.length : Int)) := by
  unfold handleSetEditingState
  rw [if_neg h]
  simp [selectionInvariant]

/-- Witness for C2 (amended) at the focused fixture state with text `"ab"`,
base `1`, extent `2`. -/
theorem setEditingState_stores_as_given_witness :
    (handleSetEditingState focusedState (some ⟨"ab", 1, 2⟩)).2 = none ∧
    (handleSetEditingState focusedState (some ⟨"ab", 1, 2⟩)).1.word = ("ab").data ∧
    (handleSetEditingState focusedState (some ⟨"ab", 1, 2⟩)).1.selectionBase = 1 ∧
    (handleSetEditingState focusedState (some ⟨"ab", 1, 2⟩)).1.selectionExtent = 2 ∧
    (selectionInvariant (handleSetEditingState focusedState (some ⟨"ab", 1, 2⟩)).1 ↔
      0 ≤ (1 : Int) ∧ (1 : Int) ≤ ((("ab").data.length : Int)) ∧
      0 ≤ (2 : Int) ∧ (2 : Int) ≤ ((("ab").data.length : Int))) :=
  setEditingState_stores_as_given focusedState ⟨"ab", 1, 2⟩ (by decide)

/-- C3: for every argument payload (well-formed or not), `setEditingState`
with the sentinel client `0` focused returns the `NoClientSelected`-style
error and returns the state exactly as it was. -/
theorem setEditingState_no_client_rejected (p : TextinputPlugin)
    (arguments : Option ArgsEditingState) (h : p.clientID = 0) :
    handleSetEditingState p arguments = (p, some errNoClient) := by
  unfold handleSetEditingState
  rw [if_pos h]

/-- Witness for C3: after clearing the client, `setEditingState("x",0,1)`
errors and leaves the state unchanged. -/
theorem setEditingState_no_client_rejected_witness :
    handleSetEditingState (handleClearClient focusedState).1 (some ⟨"x", 0, 1⟩) =
      ((handleClearClient focusedState).1, some errNoClient) :=
  setEditingState_no_client_rejected (handleClearClient focusedState).1
    (some ⟨"x", 0, 1⟩) rfl

/-- C4 counterexample: a press of key 65 with shift held while no client is
focused sends no key event at all (the callback returns before the
forwarding code), although the claim requires a `keydown` regardless of
focus; the matching release is still forwarded. -/
theorem keyevent_press_without_client_not_forwarded :
    (glfwKeyCallback idOps defaultState 65 KeyAction.press modShift (Except.ok ("a"))).keyEvents
        = [] ∧
    (glfwKeyCallback idOps defaultState 65 KeyAction.release modShift (Except.ok ("a"))).keyEvents
        = [⟨65, androidKeymap, keyupType, metaStateOf modShift⟩] := by
  exact ⟨rfl, rfl⟩

/-- C4 (amended): with a client focused, for every non-Escape key and any
modifier state, a press whose clipboard interaction (if any) succeeds emits
exactly one normalized `keydown` and its release exactly one `keyup`, both
with the same key code and the same `metaState`; holding shift sets bit 0
of `metaState`.  A press or repeat with no client focused is not forwarded
(shown by the counterexample). -/
theorem keyevent_press_release_focused (ops : EditingOps) (p : TextinputPlugin)
    (key mods : Nat) (s : String) (clipboard : Except String String)
    (hc : p.clientID ≠ 0) (hk : key ≠ keyEscape) :
    (glfwKeyCallback ops p key KeyAction.press mods (Except.ok s)).keyEvents =
      [⟨key, androidKeymap, keydownType, metaStateOf mods⟩] ∧
    (glfwKeyCallback ops p key KeyAction.release mods clipboard).keyEvents =
      [⟨key, androidKeymap, keyupType, metaStateOf mods⟩] ∧
    (mods &&& modShift ≠ 0 →
      metaStateOf mods &&& androidMetaStateShift = androidMetaStateShift) := by
  refine ⟨?_, ?_, ?_⟩
  · obtain ⟨⟨p2, clips⟩, hpr⟩ := Option.isSome_iff_exists.mp
      (dispatchKey_isSome_of_clipboard_ok ops p key mods
        (classifyFlags p.wordTravellerKeyShift p.wordTravellerKey p.modifierKey mods) s)
    simp [glfwKeyCallback, hk, hc, hpr]
  · simp [glfwKeyCallback]
  · intro h
    have hb : (mods &&& modShift != 0) = true := by simpa using h
    simp [metaStateOf, conditionalInt, hb, androidMetaStateShift]

/-- Witness for C4 (amended): key 65 pressed and released with shift held
on the focused fixture state. -/
theorem keyevent_press_release_focused_witness :
    (glfwKeyCallback idOps focusedState 65 KeyAction.press modShift
        (Except.ok (""))).keyEvents =
      [⟨65, androidKeymap, keydownType, metaStateOf modShift⟩] ∧
    (glfwKeyCallback idOps focusedState 65 KeyAction.release modShift
        (Except.ok (""))).keyEvents =
      [⟨65, androidKeymap, keyupType, metaStateOf modShift⟩] ∧
    (modShift &&& modShift ≠ 0 →
      metaStateOf modShift &&& androidMetaStateShift = androidMetaStateShift) :=
  keyevent_press_release_focused idOps focusedState 65 modShift ("")
    (Except.ok ("")) (by decide) (by decide)

/-- C5 counterexample: on the default (non-darwin) profile resolved by
`InitPlugin`, the primary modifier and the word-travel modifier are both
Control; a held modifier set equal to the profile's primary modifier then
classifies as wordTravel, not as primaryModifier, because the word-travel
case is checked first. -/
theorem classify_primary_shadowed_on_default_profile :
    linuxState.modifierKey = modControl ∧
    linuxState.wordTravellerKey = modControl ∧
    (classifyFlags linuxState.wordTravellerKeyShift linuxState.wordTravellerKey
      linuxState.modifierKey modControl).isModifier = false ∧
    (classifyFlags linuxState.wordTravellerKeyShift linuxState.wordTravellerKey
      linuxState.modifierKey modControl).isWordModifier = true := by
  exact ⟨rfl, rfl, rfl, rfl⟩

/-- C5 (amended): the held modifier set is classified into at most one of
the four non-none classes, by exact match checked in priority order
wordTravelExtend, wordTravel, primaryModifier, shift; a set equal to the
profile's primary modifier classifies as primaryModifier only when it does
not also equal the word-travel combinations (on the default profile,
Control classifies as wordTravel), and an unrecognized combination leaves
every class flag false (classifies as none). -/
theorem classifyFlags_priority (wts wt pm mods : Nat) :
    ((classifyFlags wts wt pm mods).isWordModifierShift.toNat +
     (classifyFlags wts wt pm mods).isWordModifier.toNat +
     (classifyFlags wts wt pm mods).isModifier.toNat +
     (classifyFlags wts wt pm mods).isShift.toNat ≤ 1) ∧
    ((classifyFlags wts wt pm mods).isWordModifierShift = true ↔ mods = wts) ∧
    ((classifyFlags wts wt pm mods).isWordModifier = true ↔ mods = wt ∧ mods ≠ wts) ∧
    ((classifyFlags wts wt pm mods).isModifier = true ↔
      mods = pm ∧ mods ≠ wts ∧ mods ≠ wt) ∧
    ((classifyFlags wts wt pm mods).isShift = true ↔
      mods = modShift ∧ mods ≠ wts ∧ mods ≠ wt ∧ mods ≠ pm) := by
  unfold classifyFlags
  repeat' split
  all_goals simp_all

/-- C6: pressing Escape (whatever the modifiers, the clipboard, the
focused-client state, or the out-of-source text-model implementation)
requests exactly one `popRoute` from the navigation plugin, mutates
nothing, and sends no normalized key event. -/
theorem escape_press_pops_route (ops : EditingOps) (p : TextinputPlugin)
    (mods : Nat) (clipboard : Except String String) :
    glfwKeyCallback ops p keyEscape KeyAction.press mods clipboard =
      { state := p, keyEvents := [], popRoutes := 1, clipboardSets := [] } := by
  unfold glfwKeyCallback
  rw [if_pos ⟨rfl, rfl⟩]

/-- C7 counterexample: with a client focused, pressing the paste binding
with the primary modifier held while the clipboard read fails leaves the
state unchanged — but it also suppresses the normalized `keydown` for that
press (empty event list), which the same press emits when the clipboard
read succeeds; so more than "only the paste operation" is aborted. -/
theorem paste_clipboard_error_suppresses_keyevent :
    glfwKeyCallback idOps focusedState 86 KeyAction.press modControl
        (Except.error ("boom")) =
      { state := focusedState, keyEvents := [], popRoutes := 0, clipboardSets := [] } ∧
    (glfwKeyCallback idOps focusedState 86 KeyAction.press modControl
        (Except.ok ("y"))).keyEvents =
      [⟨86, androidKeymap, keydownType, metaStateOf modControl⟩] := by
  exact ⟨rfl, rfl⟩

/-- C7 (amended): when the paste binding is pressed with the primary
modifier held and the clipboard read fails, the callback leaves the whole
editing state unchanged and writes nothing to the clipboard, but it
returns early, so the normalized key event for that press is also
suppressed. -/
theorem paste_clipboard_error_aborts (ops : EditingOps) (p : TextinputPlugin)
    (key mods : Nat) (e : String)
    (hc : p.clientID ≠ 0) (hpaste : key = p.keyboardLayout.paste)
    (hmods : mods = p.modifierKey)
    (h1 : key ≠ keyEscape) (h2 : key ≠ keyEnter) (h3 : key ≠ keyHome)
    (h4 : key ≠ keyEnd) (h5 : key ≠ keyLeft) (h6 : key ≠ keyRight)
    (h7 : key ≠ keyDelete) (h8 : key ≠ keyBackspace)
    (h9 : key ≠ p.keyboardLayout.selectAll) (h10 : key ≠ p.keyboardLayout.copy)
    (h11 : key ≠ p.keyboardLayout.cut) :
    glfwKeyCallback ops p key KeyAction.press mods (Except.error e) =
      { state := p, keyEvents := [], popRoutes := 0, clipboardSets := [] } := by
  subst hpaste
  subst hmods
  simp [glfwKeyCallback, dispatchKey, hc, h1, h2, h3, h4, h5, h6, h7, h8, h9, h10, h11]

/-- Witness for C7 (amended): the paste binding (86) with Control held on
the focused fixture state along with a failing clipboard read. -/
theorem paste_clipboard_error_aborts_witness :
    glfwKeyCallback idOps focusedState 86 KeyAction.press modControl
        (Except.error ("boom")) =
      { state := focusedState, keyEvents := [], popRoutes := 0, clipboardSets := [] } :=
  paste_clipboard_error_aborts idOps focusedState 86 modControl ("boom")
    (by decide) (by decide) (by decide) (by decide) (by decide) (by decide)
    (by decide) (by decide) (by decide) (by decide) (by decide) (by decide)
    (by decide) (by decide)

/-- C8: `setClient(id)` stores `id` as the focused client handle and
`clearClient()` stores the sentinel `0`; neither touches the stored text,
selection base or selection extent. -/
theorem setClient_clearClient_preserve_text (p : TextinputPlugin)
    (id : Int) (rest : List Json) :
    handleSetClient p (some (Json.num id :: rest)) =
      some ({ p with clientID := id }, none) ∧
    ({ p with clientID := id } : TextinputPlugin).word = p.word ∧
    ({ p with clientID := id } : TextinputPlugin).selectionBase = p.selectionBase ∧
    ({ p with clientID := id } : TextinputPlugin).selectionExtent = p.selectionExtent ∧
    handleClearClient p = ({ p with clientID := 0 }, none) ∧
    ({ p with clientID := 0 } : TextinputPlugin).word = p.word ∧
    ({ p with clientID := 0 } : TextinputPlugin).selectionBase = p.selectionBase ∧
    ({ p with clientID := 0 } : TextinputPlugin).selectionExtent = p.selectionExtent := by
  exact ⟨rfl, rfl, rfl, rfl, rfl, rfl, rfl, rfl⟩

/-- C9: over the sixteen subsets of the four modifiers (shift = bit 0,
control = bit 1, alt = bit 2, super = bit 3 of the GLFW mask), the
`metaState` encoding is injective and is `0` exactly when no modifier is
held; each single modifier maps to its fixed Android bit (0, 1, 12, 16
respectively for shift, alt, control, super). -/
theorem metaState_encoding_injective :
    (∀ m1, m1 < 16 → ∀ m2, m2 < 16 →
      (metaStateOf m1 = metaStateOf m2 ↔ m1 = m2)) ∧
    (∀ m, m < 16 → (metaStateOf m = 0 ↔ m = 0)) ∧
    metaStateOf modShift = androidMetaStateShift ∧
    metaStateOf modAlt = androidMetaStateAlt ∧
    metaStateOf modControl = androidMetaStateCtrl ∧
    metaStateOf modSuper = androidMetaStateMeta := by
  decide

/-- C10: releasing Escape is not intercepted by the navigation bypass: for
every state, modifier set, clipboard and text-model implementation, the
release is forwarded as a single normalized `keyup` event with Escape's key
code, no `popRoute` is requested, and nothing is mutated. -/
theorem escape_release_forwarded (ops : EditingOps) (p : TextinputPlugin)
    (mods : Nat) (clipboard : Except String String) :
    glfwKeyCallback ops p keyEscape KeyAction.release mods clipboard =
      { state := p,
        keyEvents := [⟨keyEscape, androidKeymap, keyupType, metaStateOf mods⟩],
        popRoutes := 0, clipboardSets := [] } := by
  simp [glfwKeyCallback]

end GoFlutter
